import Mathlib

/-!
Verification of the layered CRUD sample in `Onion Architecture/onion.py`.

The Python program is single-threaded and its state is one `Database`
object holding three lists.  We embed it as pure state-passing functions:
each method of a Repository / Service / Controller becomes a Lean
function taking the entity and the current `Database` and returning the
method's Python return value together with the successor `Database`.
`print` tracing is not part of the modelled state; the two distinct
control paths of `StudentService.add_student` (the early `return` after
the error log versus the forwarded add) are modelled by an
`Option ServiceError` component.  A Python exception (the `ValueError`
raised by `list.remove` on a missing element) is modelled with `Except`:
on the error path no successor state is produced, matching CPython's
`list.remove`, which raises before performing any mutation.
-/

/-- Entity `Student` from the domain layer: `{student_id, name, email}`. -/
structure Student where
  student_id : Nat
  name : String
  email : String
deriving DecidableEq

/-- Entity `Course` from the domain layer: `{course_id, title, trainer_id}`. -/
structure Course where
  course_id : Nat
  title : String
  trainer_id : Nat
deriving DecidableEq

/-- Entity `Trainer` from the domain layer: `{trainer_id, name, expertise}`. -/
structure Trainer where
  trainer_id : Nat
  name : String
  expertise : String
deriving DecidableEq

/-- The fake in-memory database: three independent lists
(`Database.__init__` in the source). -/
structure Database where
  students : List Student
  courses : List Course
  trainers : List Trainer
deriving DecidableEq

/-- A fresh database, as built by `Database()` in the composition root. -/
def Database.emptyDb : Database := ⟨[], [], []⟩

/-- The error raised by `list.remove` on an element that is absent:
CPython raises `ValueError` (the spec's `NotFoundError` analogue). -/
inductive RepoError where
  | notFound
deriving DecidableEq

/-- The service-level rejection path of `StudentService.add_student`:
it logs `Error: Student ID already exists.` and returns early
(the spec's `DuplicateKeyError` analogue). -/
inductive ServiceError where
  | duplicateKey
deriving DecidableEq

/-- Embedding of Python `list.remove(a)`: delete the first element equal
to `a`; `none` models the `ValueError` raised when no element matches
(in which case the list is untouched, as `list.remove` raises before
mutating). -/
def listRemoveFirst {α : Type} [DecidableEq α] (a : α) : List α → Option (List α)
  | [] => none
  | x :: xs => if x = a then some xs else (listRemoveFirst a xs).map (fun l => x :: l)

/-- `StudentRepository.add_student`: `self.db.students.append(student)` —
an unconditional append, no checks. -/
def StudentRepository.add_student (s : Student) (db : Database) : Database :=
  { db with students := db.students ++ [s] }

/-- `StudentRepository.remove_student`: `self.db.students.remove(student)`;
raises (modelled by `.error .notFound`) when the student is absent. -/
def StudentRepository.remove_student (s : Student) (db : Database) :
    Except RepoError Database :=
  match listRemoveFirst s db.students with
  | some l => .ok { db with students := l }
  | none => .error .notFound

/-- `StudentRepository.update_student`: returns the student unchanged and
touches nothing (demo-only pass-through). -/
def StudentRepository.update_student (s : Student) (db : Database) :
    Student × Database :=
  (s, db)

/-- `StudentRepository.get_all_students`: returns `self.db.students`. -/
def StudentRepository.get_all_students (db : Database) : List Student :=
  db.students

/-- `CourseRepository.add_course`: unconditional append. -/
def CourseRepository.add_course (c : Course) (db : Database) : Database :=
  { db with courses := db.courses ++ [c] }

/-- `CourseRepository.remove_course`: `self.db.courses.remove(course)`. -/
def CourseRepository.remove_course (c : Course) (db : Database) :
    Except RepoError Database :=
  match listRemoveFirst c db.courses with
  | some l => .ok { db with courses := l }
  | none => .error .notFound

/-- `CourseRepository.update_course`: pass-through returning the course. -/
def CourseRepository.update_course (c : Course) (db : Database) :
    Course × Database :=
  (c, db)

/-- `CourseRepository.get_all_courses`: returns `self.db.courses`. -/
def CourseRepository.get_all_courses (db : Database) : List Course :=
  db.courses

/-- `TrainerRepository.add_trainer`: unconditional append. -/
def TrainerRepository.add_trainer (t : Trainer) (db : Database) : Database :=
  { db with trainers := db.trainers ++ [t] }

/-- `TrainerRepository.remove_trainer`: `self.db.trainers.remove(trainer)`. -/
def TrainerRepository.remove_trainer (t : Trainer) (db : Database) :
    Except RepoError Database :=
  match listRemoveFirst t db.trainers with
  | some l => .ok { db with trainers := l }
  | none => .error .notFound

/-- `TrainerRepository.update_trainer`: pass-through returning the trainer. -/
def TrainerRepository.update_trainer (t : Trainer) (db : Database) :
    Trainer × Database :=
  (t, db)

/-- `TrainerRepository.get_all_trainers`: returns `self.db.trainers`. -/
def TrainerRepository.get_all_trainers (db : Database) : List Trainer :=
  db.trainers

/-- `StudentService.add_student`: scans `get_all_students()` for an
existing entry with the same `student_id`; if found it logs the error
and returns without calling the repository, otherwise it forwards to
`StudentRepository.add_student`.  The `Option ServiceError` component
records which of the two paths was taken. -/
def StudentService.add_student (s : Student) (db : Database) :
    Option ServiceError × Database :=
  if (StudentRepository.get_all_students db).any
      (fun existing => existing.student_id == s.student_id) then
    (some .duplicateKey, db)
  else
    (none, StudentRepository.add_student s db)

/-- `StudentService.remove_student`: forwards to the repository. -/
def StudentService.remove_student (s : Student) (db : Database) :
    Except RepoError Database :=
  StudentRepository.remove_student s db

/-- `StudentService.update_student`: forwards to the repository. -/
def StudentService.update_student (s : Student) (db : Database) :
    Student × Database :=
  StudentRepository.update_student s db

/-- `StudentService.get_all_students`: forwards to the repository. -/
def StudentService.get_all_students (db : Database) : List Student :=
  StudentRepository.get_all_students db

/-- `CourseService.add_course`: forwards unconditionally, no uniqueness
check. -/
def CourseService.add_course (c : Course) (db : Database) : Database :=
  CourseRepository.add_course c db

/-- `CourseService.remove_course`: forwards to the repository. -/
def CourseService.remove_course (c : Course) (db : Database) :
    Except RepoError Database :=
  CourseRepository.remove_course c db

/-- `CourseService.update_course`: forwards to the repository. -/
def CourseService.update_course (c : Course) (db : Database) :
    Course × Database :=
  CourseRepository.update_course c db

/-- `CourseService.get_all_courses`: forwards to the repository. -/
def CourseService.get_all_courses (db : Database) : List Course :=
  CourseRepository.get_all_courses db

/-- `TrainerService.add_trainer`: forwards unconditionally, no uniqueness
check. -/
def TrainerService.add_trainer (t : Trainer) (db : Database) : Database :=
  TrainerRepository.add_trainer t db

/-- `TrainerService.remove_trainer`: forwards to the repository. -/
def TrainerService.remove_trainer (t : Trainer) (db : Database) :
    Except RepoError Database :=
  TrainerRepository.remove_trainer t db

/-- `TrainerService.update_trainer`: forwards to the repository. -/
def TrainerService.update_trainer (t : Trainer) (db : Database) :
    Trainer × Database :=
  TrainerRepository.update_trainer t db

/-- `TrainerService.get_all_trainers`: forwards to the repository. -/
def TrainerService.get_all_trainers (db : Database) : List Trainer :=
  TrainerRepository.get_all_trainers db

/-- `StudentController.add_student`: forwards to the service. -/
def StudentController.add_student (s : Student) (db : Database) :
    Option ServiceError × Database :=
  StudentService.add_student s db

/-- `StudentController.remove_student`: forwards to the service. -/
def StudentController.remove_student (s : Student) (db : Database) :
    Except RepoError Database :=
  StudentService.remove_student s db

/-- `StudentController.update_student`: forwards to the service. -/
def StudentController.update_student (s : Student) (db : Database) :
    Student × Database :=
  StudentService.update_student s db

/-- `StudentController.get_all_students`: forwards to the service. -/
def StudentController.get_all_students (db : Database) : List Student :=
  StudentService.get_all_students db

/-- `CourseController.add_course`: forwards to the service. -/
def CourseController.add_course (c : Course) (db : Database) : Database :=
  CourseService.add_course c db

/-- `CourseController.remove_course`: forwards to the service. -/
def CourseController.remove_course (c : Course) (db : Database) :
    Except RepoError Database :=
  CourseService.remove_course c db

/-- `CourseController.update_course`: forwards to the service. -/
def CourseController.update_course (c : Course) (db : Database) :
    Course × Database :=
  CourseService.update_course c db

/-- `CourseController.get_all_courses`: forwards to the service. -/
def CourseController.get_all_courses (db : Database) : List Course :=
  CourseService.get_all_courses db

/-- `TrainerController.add_trainer`: forwards to the service. -/
def TrainerController.add_trainer (t : Trainer) (db : Database) : Database :=
  TrainerService.add_trainer t db

/-- `TrainerController.remove_trainer`: forwards to the service. -/
def TrainerController.remove_trainer (t : Trainer) (db : Database) :
    Except RepoError Database :=
  TrainerService.remove_trainer t db

/-- `TrainerController.update_trainer`: forwards to the service. -/
def TrainerController.update_trainer (t : Trainer) (db : Database) :
    Trainer × Database :=
  TrainerService.update_trainer t db

/-- `TrainerController.get_all_trainers`: forwards to the service. -/
def TrainerController.get_all_trainers (db : Database) : List Trainer :=
  TrainerService.get_all_trainers db

/-- A caller of `remove_student` observing exception propagation: on the
`ValueError` path the database is left exactly as it was (`list.remove`
raises before mutating), and the error is what the caller sees. -/
def removeStudentRun (s : Student) (db : Database) : Database × Option RepoError :=
  match StudentController.remove_student s db with
  | .ok db' => (db', none)
  | .error e => (db, some e)

/-- A caller of `remove_course` observing exception propagation. -/
def removeCourseRun (c : Course) (db : Database) : Database × Option RepoError :=
  match CourseController.remove_course c db with
  | .ok db' => (db', none)
  | .error e => (db, some e)

/-- A caller of `remove_trainer` observing exception propagation. -/
def removeTrainerRun (t : Trainer) (db : Database) : Database × Option RepoError :=
  match TrainerController.remove_trainer t db with
  | .ok db' => (db', none)
  | .error e => (db, some e)

/-- Folding a sequence of `add_student` calls issued through the
controller (hence the service's duplicate check), as the main program
does. -/
def runStudentAdds (db : Database) : List Student → Database
  | [] => db
  | s :: rest => runStudentAdds (StudentController.add_student s db).2 rest

/-- The sub-sequence of a batch of `add_student` calls that the service
accepts (does not reject as duplicates), in call order. -/
def acceptedStudents (db : Database) : List Student → List Student
  | [] => []
  | s :: rest =>
    match StudentController.add_student s db with
    | (some _, db') => acceptedStudents db' rest
    | (none, db') => s :: acceptedStudents db' rest

/-- Folding a sequence of `add_course` calls through the controller. -/
def runCourseAdds (db : Database) : List Course → Database
  | [] => db
  | c :: rest => runCourseAdds (CourseController.add_course c db) rest

/-- Folding a sequence of `add_trainer` calls through the controller. -/
def runTrainerAdds (db : Database) : List Trainer → Database
  | [] => db
  | t :: rest => runTrainerAdds (TrainerController.add_trainer t db) rest

/-- The uniqueness invariant on the student collection: pairwise
distinct `student_id`s. -/
def uniqueIds (l : List Student) : Prop :=
  l.Pairwise (fun a b => a.student_id ≠ b.student_id)

example :
    StudentService.add_student ⟨1, "DuplicateRashed", "duplicate@example.com"⟩
      ⟨[⟨1, "Rashed", "rashed@example.com"⟩, ⟨2, "Shuvo", "shuvo@example.com"⟩], [], []⟩ =
    (some .duplicateKey,
      ⟨[⟨1, "Rashed", "rashed@example.com"⟩, ⟨2, "Shuvo", "shuvo@example.com"⟩], [], []⟩) := by
  decide

example :
    (runStudentAdds Database.emptyDb
      [⟨1, "Rashed", "r@e.com"⟩, ⟨2, "Shuvo", "s@e.com"⟩, ⟨1, "DuplicateRashed", "d@e.com"⟩]).students =
    [⟨1, "Rashed", "r@e.com"⟩, ⟨2, "Shuvo", "s@e.com"⟩] := by
  decide

/-! ### Helper lemmas -/

theorem listRemoveFirst_eq_none {α : Type} [DecidableEq α] (a : α) (l : List α)
    (h : a ∉ l) : listRemoveFirst a l = none := by
  induction l with
  | nil => rfl
  | cons x xs ih =>
    simp only [List.mem_cons, not_or] at h
    have hxa : ¬ x = a := fun hxa => h.1 hxa.symm
    simp [listRemoveFirst, hxa, ih h.2]

theorem listRemoveFirst_first_match {α : Type} [DecidableEq α] (a : α)
    (l₁ l₂ : List α) (h : a ∉ l₁) :
    listRemoveFirst a (l₁ ++ a :: l₂) = some (l₁ ++ l₂) := by
  induction l₁ with
  | nil => simp [listRemoveFirst]
  | cons x xs ih =>
    simp only [List.mem_cons, not_or] at h
    have hxa : ¬ x = a := fun hxa => h.1 hxa.symm
    simp [listRemoveFirst, hxa, ih h.2]

theorem serviceAdd_dup (s : Student) (db : Database)
    (h : ∃ t ∈ db.students, t.student_id = s.student_id) :
    StudentService.add_student s db = (some .duplicateKey, db) := by
  obtain ⟨t, ht, hid⟩ := h
  simp [StudentService.add_student, StudentRepository.get_all_students,
    List.any_eq_true]
  exact ⟨t, ht, hid⟩

theorem serviceAdd_fresh (s : Student) (db : Database)
    (h : ∀ t ∈ db.students, t.student_id ≠ s.student_id) :
    StudentService.add_student s db =
      (none, { db with students := db.students ++ [s] }) := by
  have hany : (db.students.any (fun e => e.student_id == s.student_id)) = false := by
    simp [List.any_eq_false]
    exact h
  simp [StudentService.add_student, StudentRepository.get_all_students,
    StudentRepository.add_student, hany]

theorem serviceAdd_preserves_uniqueIds (s : Student) (db : Database)
    (h : uniqueIds db.students) :
    uniqueIds ((StudentService.add_student s db).2).students := by
  by_cases hd : ∃ t ∈ db.students, t.student_id = s.student_id
  · rw [serviceAdd_dup s db hd]
    exact h
  · push_neg at hd
    rw [serviceAdd_fresh s db hd]
    simp only [uniqueIds] at h ⊢
    rw [List.pairwise_append]
    refine ⟨h, List.pairwise_singleton _ _, ?_⟩
    intro a ha b hb
    simp only [List.mem_singleton] at hb
    subst hb
    exact hd a ha

theorem runStudentAdds_uniqueIds (es : List Student) (db : Database)
    (h : uniqueIds db.students) :
    uniqueIds (runStudentAdds db es).students := by
  induction es generalizing db with
  | nil => exact h
  | cons s rest ih =>
    exact ih _ (serviceAdd_preserves_uniqueIds s db h)

theorem runStudentAdds_getAll (es : List Student) (db : Database) :
    (runStudentAdds db es).students = db.students ++ acceptedStudents db es := by
  induction es generalizing db with
  | nil => simp [runStudentAdds, acceptedStudents]
  | cons s rest ih =>
    by_cases hd : ∃ t ∈ db.students, t.student_id = s.student_id
    · have hstep : StudentController.add_student s db = (some .duplicateKey, db) :=
        serviceAdd_dup s db hd
      simp [runStudentAdds, acceptedStudents, hstep, ih]
    · push_neg at hd
      have hstep : StudentController.add_student s db =
          (none, { db with students := db.students ++ [s] }) :=
        serviceAdd_fresh s db hd
      simp [runStudentAdds, acceptedStudents, hstep, ih]

theorem runCourseAdds_getAll (cs : List Course) (db : Database) :
    (runCourseAdds db cs).courses = db.courses ++ cs := by
  induction cs generalizing db with
  | nil => simp [runCourseAdds]
  | cons c rest ih =>
    simp [runCourseAdds, CourseController.add_course, CourseService.add_course,
      CourseRepository.add_course, ih]

theorem runTrainerAdds_getAll (ts : List Trainer) (db : Database) :
    (runTrainerAdds db ts).trainers = db.trainers ++ ts := by
  induction ts generalizing db with
  | nil => simp [runTrainerAdds]
  | cons t rest ih =>
    simp [runTrainerAdds, TrainerController.add_trainer, TrainerService.add_trainer,
      TrainerRepository.add_trainer, ih]

theorem serviceAdd_courses_frame (s : Student) (db : Database) :
    (StudentService.add_student s db).2.courses = db.courses ∧
    (StudentService.add_student s db).2.trainers = db.trainers := by
  unfold StudentService.add_student
  split <;> simp [StudentRepository.add_student]

theorem removeStudentRun_frame (s : Student) (db : Database) :
    (removeStudentRun s db).1.courses = db.courses ∧
    (removeStudentRun s db).1.trainers = db.trainers := by
  unfold removeStudentRun StudentController.remove_student
    StudentService.remove_student StudentRepository.remove_student
  cases h : listRemoveFirst s db.students <;> simp [h]

theorem removeCourseRun_frame (c : Course) (db : Database) :
    (removeCourseRun c db).1.students = db.students ∧
    (removeCourseRun c db).1.trainers = db.trainers := by
  unfold removeCourseRun CourseController.remove_course
    CourseService.remove_course CourseRepository.remove_course
  cases h : listRemoveFirst c db.courses <;> simp [h]

theorem removeTrainerRun_frame (t : Trainer) (db : Database) :
    (removeTrainerRun t db).1.students = db.students ∧
    (removeTrainerRun t db).1.courses = db.courses := by
  unfold removeTrainerRun TrainerController.remove_trainer
    TrainerService.remove_trainer TrainerRepository.remove_trainer
  cases h : listRemoveFirst t db.trainers <;> simp [h]

/-! ### Claim theorems -/

/-- Claim C1: through the Controller/Service layer, any sequence of
`add(Student)` calls starting from the empty store yields a collection
with at most one student per `student_id` (pairwise-distinct ids), and
an add whose `student_id` already occurs is rejected on the early-return
path — the entity is not forwarded to the repository and the database is
returned exactly unchanged. -/
theorem C1_student_add_uniqueness :
    (∀ es : List Student,
      uniqueIds (runStudentAdds Database.emptyDb es).students) ∧
    (∀ (s : Student) (db : Database),
      (∃ t ∈ db.students, t.student_id = s.student_id) →
      StudentController.add_student s db = (some ServiceError.duplicateKey, db)) := by
  constructor
  · intro es
    exact runStudentAdds_uniqueIds es Database.emptyDb List.Pairwise.nil
  · intro s db h
    exact serviceAdd_dup s db h

theorem C1_student_add_uniqueness_witness :
    (∃ t ∈ ([⟨1, "Rashed", "rashed@example.com"⟩] : List Student),
      t.student_id = (⟨1, "DuplicateRashed", "duplicate@example.com"⟩ : Student).student_id) ∧
    StudentController.add_student ⟨1, "DuplicateRashed", "duplicate@example.com"⟩
        ⟨[⟨1, "Rashed", "rashed@example.com"⟩], [], []⟩ =
      (some ServiceError.duplicateKey, ⟨[⟨1, "Rashed", "rashed@example.com"⟩], [], []⟩) :=
  ⟨by decide,
    C1_student_add_uniqueness.2 ⟨1, "DuplicateRashed", "duplicate@example.com"⟩
      ⟨[⟨1, "Rashed", "rashed@example.com"⟩], [], []⟩ (by decide)⟩

/-- Claim C2: adding a student whose `student_id` already exists takes the
service's error path (the logged duplicate report, the spec's
`DuplicateKeyError`) and aborts with no partial mutation: the returned
database is exactly the input database. -/
theorem C2_duplicate_add_reported_and_aborted :
    ∀ (s : Student) (db : Database),
      (∃ t ∈ db.students, t.student_id = s.student_id) →
      StudentService.add_student s db = (some ServiceError.duplicateKey, db) := by
  intro s db h
  exact serviceAdd_dup s db h

theorem C2_duplicate_add_reported_and_aborted_witness :
    (∃ t ∈ ([⟨1, "Rashed", "r@e.com"⟩, ⟨2, "Shuvo", "s@e.com"⟩] : List Student),
      t.student_id = (⟨1, "DuplicateRashed", "d@e.com"⟩ : Student).student_id) ∧
    StudentService.add_student ⟨1, "DuplicateRashed", "d@e.com"⟩
        ⟨[⟨1, "Rashed", "r@e.com"⟩, ⟨2, "Shuvo", "s@e.com"⟩], [], []⟩ =
      (some ServiceError.duplicateKey,
        ⟨[⟨1, "Rashed", "r@e.com"⟩, ⟨2, "Shuvo", "s@e.com"⟩], [], []⟩) :=
  ⟨by decide,
    C2_duplicate_add_reported_and_aborted ⟨1, "DuplicateRashed", "d@e.com"⟩
      ⟨[⟨1, "Rashed", "r@e.com"⟩, ⟨2, "Shuvo", "s@e.com"⟩], [], []⟩ (by decide)⟩

/-- Claim C3: for every entity kind, removing an entity that is absent
from its collection reports the not-found error (`ValueError` from
`list.remove`, the spec's `NotFoundError`) and the caller's database is
exactly the one before the call. -/
theorem C3_remove_absent_reports_notFound :
    (∀ (s : Student) (db : Database), s ∉ db.students →
      removeStudentRun s db = (db, some RepoError.notFound)) ∧
    (∀ (c : Course) (db : Database), c ∉ db.courses →
      removeCourseRun c db = (db, some RepoError.notFound)) ∧
    (∀ (t : Trainer) (db : Database), t ∉ db.trainers →
      removeTrainerRun t db = (db, some RepoError.notFound)) := by
  refine ⟨?_, ?_, ?_⟩
  · intro s db h
    simp [removeStudentRun, StudentController.remove_student,
      StudentService.remove_student, StudentRepository.remove_student,
      listRemoveFirst_eq_none s db.students h]
  · intro c db h
    simp [removeCourseRun, CourseController.remove_course,
      CourseService.remove_course, CourseRepository.remove_course,
      listRemoveFirst_eq_none c db.courses h]
  · intro t db h
    simp [removeTrainerRun, TrainerController.remove_trainer,
      TrainerService.remove_trainer, TrainerRepository.remove_trainer,
      listRemoveFirst_eq_none t db.trainers h]

theorem C3_remove_absent_reports_notFound_witness :
    ((⟨3, "Ghost", "g@e.com"⟩ : Student) ∉
      ([⟨1, "Rashed", "r@e.com"⟩, ⟨2, "Shuvo", "s@e.com"⟩] : List Student)) ∧
    removeStudentRun ⟨3, "Ghost", "g@e.com"⟩
        ⟨[⟨1, "Rashed", "r@e.com"⟩, ⟨2, "Shuvo", "s@e.com"⟩], [], []⟩ =
      (⟨[⟨1, "Rashed", "r@e.com"⟩, ⟨2, "Shuvo", "s@e.com"⟩], [], []⟩,
        some RepoError.notFound) :=
  ⟨by decide,
    C3_remove_absent_reports_notFound.1 ⟨3, "Ghost", "g@e.com"⟩
      ⟨[⟨1, "Rashed", "r@e.com"⟩, ⟨2, "Shuvo", "s@e.com"⟩], [], []⟩ (by decide)⟩

/-- Claim C4: for every entity kind, after any batch of add calls,
`get_all` returns the initial contents followed by the successfully
added entities in call order (for courses and trainers every add
succeeds); and a successful remove deletes exactly the first matching
entity, leaving the relative order of the remainder unchanged. -/
theorem C4_order_preservation :
    (∀ (db : Database) (es : List Student),
      StudentController.get_all_students (runStudentAdds db es) =
        db.students ++ acceptedStudents db es) ∧
    (∀ (db : Database) (cs : List Course),
      CourseController.get_all_courses (runCourseAdds db cs) = db.courses ++ cs) ∧
    (∀ (db : Database) (ts : List Trainer),
      TrainerController.get_all_trainers (runTrainerAdds db ts) = db.trainers ++ ts) ∧
    (∀ (s : Student) (db : Database) (l₁ l₂ : List Student),
      db.students = l₁ ++ s :: l₂ → s ∉ l₁ →
      StudentRepository.remove_student s db =
        .ok { db with students := l₁ ++ l₂ }) ∧
    (∀ (c : Course) (db : Database) (l₁ l₂ : List Course),
      db.courses = l₁ ++ c :: l₂ → c ∉ l₁ →
      CourseRepository.remove_course c db =
        .ok { db with courses := l₁ ++ l₂ }) ∧
    (∀ (t : Trainer) (db : Database) (l₁ l₂ : List Trainer),
      db.trainers = l₁ ++ t :: l₂ → t ∉ l₁ →
      TrainerRepository.remove_trainer t db =
        .ok { db with trainers := l₁ ++ l₂ }) := by
  refine ⟨?_, ?_, ?_, ?_, ?_, ?_⟩
  · intro db es
    exact runStudentAdds_getAll es db
  · intro db cs
    exact runCourseAdds_getAll cs db
  · intro db ts
    exact runTrainerAdds_getAll ts db
  · intro s db l₁ l₂ hdb h
    simp [StudentRepository.remove_student, hdb,
      listRemoveFirst_first_match s l₁ l₂ h]
  · intro c db l₁ l₂ hdb h
    simp [CourseRepository.remove_course, hdb,
      listRemoveFirst_first_match c l₁ l₂ h]
  · intro t db l₁ l₂ hdb h
    simp [TrainerRepository.remove_trainer, hdb,
      listRemoveFirst_first_match t l₁ l₂ h]

theorem C4_order_preservation_witness :
    (([⟨2, "Shuvo", "s@e.com"⟩, ⟨1, "Rashed", "r@e.com"⟩, ⟨1, "Rashed", "r@e.com"⟩] :
        List Student) =
      [⟨2, "Shuvo", "s@e.com"⟩] ++ ⟨1, "Rashed", "r@e.com"⟩ :: [⟨1, "Rashed", "r@e.com"⟩]) ∧
    ((⟨1, "Rashed", "r@e.com"⟩ : Student) ∉ ([⟨2, "Shuvo", "s@e.com"⟩] : List Student)) ∧
    StudentRepository.remove_student ⟨1, "Rashed", "r@e.com"⟩
        ⟨[⟨2, "Shuvo", "s@e.com"⟩, ⟨1, "Rashed", "r@e.com"⟩, ⟨1, "Rashed", "r@e.com"⟩], [], []⟩ =
      .ok ⟨[⟨2, "Shuvo", "s@e.com"⟩, ⟨1, "Rashed", "r@e.com"⟩], [], []⟩ :=
  ⟨by decide, by decide,
    C4_order_preservation.2.2.2.1 ⟨1, "Rashed", "r@e.com"⟩
      ⟨[⟨2, "Shuvo", "s@e.com"⟩, ⟨1, "Rashed", "r@e.com"⟩, ⟨1, "Rashed", "r@e.com"⟩], [], []⟩
      [⟨2, "Shuvo", "s@e.com"⟩] [⟨1, "Rashed", "r@e.com"⟩] (by decide) (by decide)⟩

/-- Claim C5: repository-level `add` appends unconditionally for every
entity kind and never fails; in particular a student whose key already
occurs in the collection is still appended — the repository performs no
uniqueness check. -/
theorem C5_repository_add_unconditional :
    (∀ (s : Student) (db : Database),
      StudentRepository.add_student s db =
        { db with students := db.students ++ [s] }) ∧
    (∀ (c : Course) (db : Database),
      CourseRepository.add_course c db =
        { db with courses := db.courses ++ [c] }) ∧
    (∀ (t : Trainer) (db : Database),
      TrainerRepository.add_trainer t db =
        { db with trainers := db.trainers ++ [t] }) ∧
    (∀ (s : Student) (db : Database),
      (∃ t ∈ db.students, t.student_id = s.student_id) →
      (StudentRepository.add_student s db).students = db.students ++ [s]) :=
  ⟨fun _ _ => rfl, fun _ _ => rfl, fun _ _ => rfl, fun _ _ _ => rfl⟩

theorem C5_repository_add_unconditional_witness :
    (∃ t ∈ ([⟨1, "Rashed", "r@e.com"⟩] : List Student),
      t.student_id = (⟨1, "Clone", "c@e.com"⟩ : Student).student_id) ∧
    (StudentRepository.add_student ⟨1, "Clone", "c@e.com"⟩
        ⟨[⟨1, "Rashed", "r@e.com"⟩], [], []⟩).students =
      [⟨1, "Rashed", "r@e.com"⟩, ⟨1, "Clone", "c@e.com"⟩] :=
  ⟨by decide,
    C5_repository_add_unconditional.2.2.2 ⟨1, "Clone", "c@e.com"⟩
      ⟨[⟨1, "Rashed", "r@e.com"⟩], [], []⟩ (by decide)⟩

/-- Claim C6: the Course and Trainer services forward `add`
unconditionally: adding two courses (or two trainers) with the same key
succeeds both times and both entities appear in `get_all`, in order. -/
theorem C6_course_trainer_add_no_uniqueness :
    (∀ (db : Database) (c₁ c₂ : Course), c₁.course_id = c₂.course_id →
      CourseController.get_all_courses
          (CourseController.add_course c₂ (CourseController.add_course c₁ db)) =
        db.courses ++ [c₁, c₂]) ∧
    (∀ (db : Database) (t₁ t₂ : Trainer), t₁.trainer_id = t₂.trainer_id →
      TrainerController.get_all_trainers
          (TrainerController.add_trainer t₂ (TrainerController.add_trainer t₁ db)) =
        db.trainers ++ [t₁, t₂]) := by
  constructor
  · intro db c₁ c₂ _
    simp [CourseController.get_all_courses, CourseController.add_course,
      CourseService.get_all_courses, CourseService.add_course,
      CourseRepository.get_all_courses, CourseRepository.add_course]
  · intro db t₁ t₂ _
    simp [TrainerController.get_all_trainers, TrainerController.add_trainer,
      TrainerService.get_all_trainers, TrainerService.add_trainer,
      TrainerRepository.get_all_trainers, TrainerRepository.add_trainer]

theorem C6_course_trainer_add_no_uniqueness_witness :
    ((⟨1, "Python Basics", 1⟩ : Course).course_id =
      (⟨1, "Python Again", 2⟩ : Course).course_id) ∧
    CourseController.get_all_courses
        (CourseController.add_course ⟨1, "Python Again", 2⟩
          (CourseController.add_course ⟨1, "Python Basics", 1⟩ Database.emptyDb)) =
      [⟨1, "Python Basics", 1⟩, ⟨1, "Python Again", 2⟩] :=
  ⟨by decide,
    C6_course_trainer_add_no_uniqueness.1 Database.emptyDb
      ⟨1, "Python Basics", 1⟩ ⟨1, "Python Again", 2⟩ (by decide)⟩

/-- Claim C7: `update` is a pass-through at every layer and for every
entity kind: it returns the given entity and the database is exactly
unchanged. -/
theorem C7_update_is_identity_passthrough :
    (∀ (s : Student) (db : Database),
      StudentRepository.update_student s db = (s, db) ∧
      StudentService.update_student s db = (s, db) ∧
      StudentController.update_student s db = (s, db)) ∧
    (∀ (c : Course) (db : Database),
      CourseRepository.update_course c db = (c, db) ∧
      CourseService.update_course c db = (c, db) ∧
      CourseController.update_course c db = (c, db)) ∧
    (∀ (t : Trainer) (db : Database),
      TrainerRepository.update_trainer t db = (t, db) ∧
      TrainerService.update_trainer t db = (t, db) ∧
      TrainerController.update_trainer t db = (t, db)) :=
  ⟨fun _ _ => ⟨rfl, rfl, rfl⟩, fun _ _ => ⟨rfl, rfl, rfl⟩,
    fun _ _ => ⟨rfl, rfl, rfl⟩⟩

/-- Claim C8: every controller method is observationally equal to the
same-named service method — same input state, same resulting state, same
return value, for all three entity kinds. -/
theorem C8_controller_equals_service :
    (∀ (s : Student) (db : Database),
      StudentController.add_student s db = StudentService.add_student s db ∧
      StudentController.remove_student s db = StudentService.remove_student s db ∧
      StudentController.update_student s db = StudentService.update_student s db) ∧
    (∀ db : Database,
      StudentController.get_all_students db = StudentService.get_all_students db) ∧
    (∀ (c : Course) (db : Database),
      CourseController.add_course c db = CourseService.add_course c db ∧
      CourseController.remove_course c db = CourseService.remove_course c db ∧
      CourseController.update_course c db = CourseService.update_course c db) ∧
    (∀ db : Database,
      CourseController.get_all_courses db = CourseService.get_all_courses db) ∧
    (∀ (t : Trainer) (db : Database),
      TrainerController.add_trainer t db = TrainerService.add_trainer t db ∧
      TrainerController.remove_trainer t db = TrainerService.remove_trainer t db ∧
      TrainerController.update_trainer t db = TrainerService.update_trainer t db) ∧
    (∀ db : Database,
      TrainerController.get_all_trainers db = TrainerService.get_all_trainers db) :=
  ⟨fun _ _ => ⟨rfl, rfl, rfl⟩, fun _ => rfl,
    fun _ _ => ⟨rfl, rfl, rfl⟩, fun _ => rfl,
    fun _ _ => ⟨rfl, rfl, rfl⟩, fun _ => rfl⟩

/-- Claim C9: every operation on one entity stack leaves the other two
collections untouched, for all three stacks; `get_all` is a pure read of
the stack's own collection. -/
theorem C9_cross_entity_frame :
    (∀ (s : Student) (db : Database),
      (StudentController.add_student s db).2.courses = db.courses ∧
      (StudentController.add_student s db).2.trainers = db.trainers ∧
      (removeStudentRun s db).1.courses = db.courses ∧
      (removeStudentRun s db).1.trainers = db.trainers ∧
      (StudentController.update_student s db).2.courses = db.courses ∧
      (StudentController.update_student s db).2.trainers = db.trainers) ∧
    (∀ db : Database, StudentController.get_all_students db = db.students) ∧
    (∀ (c : Course) (db : Database),
      (CourseController.add_course c db).students = db.students ∧
      (CourseController.add_course c db).trainers = db.trainers ∧
      (removeCourseRun c db).1.students = db.students ∧
      (removeCourseRun c db).1.trainers = db.trainers ∧
      (CourseController.update_course c db).2.students = db.students ∧
      (CourseController.update_course c db).2.trainers = db.trainers) ∧
    (∀ db : Database, CourseController.get_all_courses db = db.courses) ∧
    (∀ (t : Trainer) (db : Database),
      (TrainerController.add_trainer t db).students = db.students ∧
      (TrainerController.add_trainer t db).courses = db.courses ∧
      (removeTrainerRun t db).1.students = db.students ∧
      (removeTrainerRun t db).1.courses = db.courses ∧
      (TrainerController.update_trainer t db).2.students = db.students ∧
      (TrainerController.update_trainer t db).2.courses = db.courses) ∧
    (∀ db : Database, TrainerController.get_all_trainers db = db.trainers) := by
  refine ⟨?_, fun _ => rfl, ?_, fun _ => rfl, ?_, fun _ => rfl⟩
  · intro s db
    exact ⟨(serviceAdd_courses_frame s db).1, (serviceAdd_courses_frame s db).2,
      (removeStudentRun_frame s db).1, (removeStudentRun_frame s db).2, rfl, rfl⟩
  · intro c db
    exact ⟨rfl, rfl, (removeCourseRun_frame c db).1,
      (removeCourseRun_frame c db).2, rfl, rfl⟩
  · intro t db
    exact ⟨rfl, rfl, (removeTrainerRun_frame t db).1,
      (removeTrainerRun_frame t db).2, rfl, rfl⟩

/-- Claim C10: the service's accept/reject decision for `add(Student)`
depends only on `student_id`: two candidates with the same id (any names
or emails) receive the same decision in any fixed store state. -/
theorem C10_decision_depends_only_on_id :
    ∀ (db : Database) (s₁ s₂ : Student), s₁.student_id = s₂.student_id →
      (StudentService.add_student s₁ db).1 = (StudentService.add_student s₂ db).1 := by
  intro db s₁ s₂ h
  unfold StudentService.add_student
  simp only [h]
  by_cases hA : ((StudentRepository.get_all_students db).any
      fun existing => existing.student_id == s₂.student_id) = true <;>
    simp [hA]

theorem C10_decision_depends_only_on_id_witness :
    ((⟨1, "Rashed", "r@e.com"⟩ : Student).student_id =
      (⟨1, "SomeoneElse", "x@e.com"⟩ : Student).student_id) ∧
    (StudentService.add_student ⟨1, "Rashed", "r@e.com"⟩
        ⟨[⟨1, "Shuvo", "s@e.com"⟩], [], []⟩).1 =
      (StudentService.add_student ⟨1, "SomeoneElse", "x@e.com"⟩
        ⟨[⟨1, "Shuvo", "s@e.com"⟩], [], []⟩).1 :=
  ⟨by decide,
    C10_decision_depends_only_on_id ⟨[⟨1, "Shuvo", "s@e.com"⟩], [], []⟩
      ⟨1, "Rashed", "r@e.com"⟩ ⟨1, "SomeoneElse", "x@e.com"⟩ (by decide)⟩
